import Mathlib

/-!
A shallow embedding of the wgpu hello-triangle program (src/main.rs).

The program wires a windowing subsystem (winit) and a GPU subsystem (wgpu)
together: `EventHandler` forwards window callbacks as `Event`s over a
channel, `State.run` consumes the events, builds one `Gfx` context on the
first `WindowCreated` and issues one fixed render pass per
`RedrawRequested` until `WindowClose`.

The two external subsystems are modelled as deterministic oracles
(`GpuEnv`, `WinitEnv`) that supply the result of every fallible external
call; the channel is modelled as the list of events it delivers, in FIFO
order, with the empty list standing for a disconnected sender.  Functions
return an `Outcome` distinguishing `ok`, a propagated error (Rust
`Err`/`?`) and a panic (Rust `unwrap`/out-of-bounds indexing).
-/

namespace HelloTriangle

/-- A native window; only its inner size is observed by this program
(`window.inner_size()` in `Gfx::new`). -/
structure Window where
  innerSize : Nat × Nat
deriving DecidableEq

/-- Opaque wgpu surface handle. -/
structure Surface where
  id : Nat
deriving DecidableEq

/-- Opaque wgpu adapter handle. -/
structure Adapter where
  id : Nat
deriving DecidableEq

/-- Opaque wgpu logical-device handle. -/
structure Device where
  id : Nat
deriving DecidableEq

/-- Opaque wgpu command-queue handle. -/
structure Queue where
  id : Nat
deriving DecidableEq

/-- Opaque presentable surface texture handle. -/
structure Texture where
  id : Nat
deriving DecidableEq

/-- A texture format reported by the surface capability query. -/
structure TextureFormat where
  id : Nat
deriving DecidableEq

/-- The events sent from the event bridge to the state machine
(`enum Event` in main.rs). -/
inductive Event where
  | windowCreated (w : Window)
  | windowClose
  | redrawRequested
deriving DecidableEq

/-- wgpu power preference; `PowerPreference::default()` is the
no-preference variant. -/
inductive PowerPreference where
  | noPreference
  | lowPower
  | highPerformance
deriving DecidableEq

/-- The options `Gfx::new` passes to `request_adapter`. -/
structure RequestAdapterOptions where
  powerPreference : PowerPreference
  forceFallbackAdapter : Bool
  compatibleSurface : Option Surface
deriving DecidableEq

/-- wgpu memory hints; main.rs uses `MemoryHints::MemoryUsage`. -/
inductive MemoryHints where
  | Performance
  | MemoryUsage
deriving DecidableEq

/-- The descriptor `Gfx::new` passes to `request_device`:
no label, `Features::empty()`, `Limits::default()`, `MemoryUsage`. -/
structure DeviceDescriptor where
  label : Option String
  requiredFeatures : List String
  defaultLimits : Bool
  memoryHints : MemoryHints
deriving DecidableEq

/-- Surface capabilities; only the supported-format list is used. -/
structure SurfaceCapabilities where
  formats : List TextureFormat
deriving DecidableEq

/-- A surface presentation configuration as returned by
`get_default_config`. -/
structure SurfaceConfiguration where
  width : Nat
  height : Nat
  format : TextureFormat
deriving DecidableEq

/-- A compiled shader module; semantically just its source text. -/
structure ShaderModule where
  source : String
deriving DecidableEq

/-- Modelled from the spec: the embedded shader asset (the file
`shader.wgsl` pulled in by `Gfx::new`) is not present under src/; the
spec describes it as a fixed vertex+fragment source with entry points
`vs_main` and `fs_main` whose contents this program never inspects, so it
is modelled as an opaque constant text. -/
def shaderWgsl : String :=
  "fixed wgsl shader source with entry points vs_main and fs_main"

/-- A pipeline layout; main.rs builds one with no bind group layouts and
no push constant ranges. -/
structure PipelineLayout where
  bindGroupLayouts : Nat
  pushConstantRanges : Nat
deriving DecidableEq

/-- The render pipeline, recorded as the descriptor main.rs builds it
from: vertex stage `vs_main` with no vertex buffers, fragment stage
`fs_main` with one color target in the chosen format, no depth/stencil,
default (non-multisampled) state. -/
structure RenderPipeline where
  layout : Option PipelineLayout
  vertexModule : ShaderModule
  vertexEntry : Option String
  vertexBuffers : Nat
  fragmentModule : ShaderModule
  fragmentEntry : Option String
  fragmentTargets : List (Option TextureFormat)
  depthStencil : Option Unit
  sampleCount : Nat
deriving DecidableEq

/-- A wgpu double-precision color; `wgpu::Color::GREEN` is (0,1,0,1). -/
structure Color where
  r : Rat
  g : Rat
  b : Rat
  a : Rat
deriving DecidableEq

/-- `wgpu::Color::GREEN`. -/
def Color.GREEN : Color := { r := 0, g := 1, b := 0, a := 1 }

/-- Render-pass load operation. -/
inductive LoadOp where
  | clear (c : Color)
  | load
deriving DecidableEq

/-- Render-pass store operation. -/
inductive StoreOp where
  | store
  | discard
deriving DecidableEq

/-- One color attachment of a render pass. -/
structure ColorAttachment where
  resolveTarget : Option Unit
  load : LoadOp
  store : StoreOp
deriving DecidableEq

/-- The observable record of one rendered frame: the render pass begun on
the acquired texture's view, the pipeline bound, the draw calls issued,
and whether the command buffer was submitted and the frame presented. -/
structure FrameRender where
  colorAttachments : List (Option ColorAttachment)
  depthStencilAttachment : Option Unit
  pipelineSet : List RenderPipeline
  draws : List (Nat × Nat × Nat × Nat)
  vertexBuffersSet : Nat
  indexBufferSet : Bool
  submitted : Bool
  presented : Bool
deriving DecidableEq

/-- Result of a fallible computation: `ok`, a propagated `Err` (Rust `?`),
or a Rust panic (e.g. out-of-bounds indexing). -/
inductive Outcome (α : Type) where
  | ok (a : α)
  | error (msg : String)
  | panic (msg : String)
deriving DecidableEq

/-- Whether an outcome is a panic. -/
def Outcome.isPanic {α : Type} : Outcome α → Bool
  | .panic _ => true
  | _ => false

/-- The GPU subsystem as a deterministic oracle: each field gives the
result of the corresponding wgpu call.  `getCurrentTexture` is indexed by
the number of acquisitions made so far, so the oracle may fail on any
particular frame. -/
structure GpuEnv where
  createSurface : Window → Except String Surface
  requestAdapter : RequestAdapterOptions → Option Adapter
  requestDevice : Adapter → DeviceDescriptor → Except String (Device × Queue)
  getCapabilities : Surface → Adapter → SurfaceCapabilities
  getDefaultConfig : Surface → Adapter → Nat → Nat → Option SurfaceConfiguration
  getCurrentTexture : Nat → Except String Texture

/-- The graphics context: exactly the fields of `struct Gfx` in main.rs. -/
structure Gfx where
  surface : Surface
  device : Device
  queue : Queue
  pipeline : RenderPipeline
deriving DecidableEq

/-- The adapter options main.rs builds: default power preference, no
software fallback, compatible with the given surface. -/
def requestOptions (s : Surface) : RequestAdapterOptions :=
  { powerPreference := PowerPreference.noPreference
    forceFallbackAdapter := false
    compatibleSurface := some s }

/-- The device descriptor main.rs builds. -/
def deviceDescriptor : DeviceDescriptor :=
  { label := none
    requiredFeatures := []
    defaultLimits := true
    memoryHints := MemoryHints.MemoryUsage }

/-- `Gfx::new`: create a surface, request an adapter (error
"no adapter found!" if none), request a device and queue, compile the
shader, build the empty pipeline layout, pick the first supported surface
format (out-of-bounds panic if the capability list is empty), build the
render pipeline, get the default surface configuration (error
"failed to create config!" if unavailable) and configure the surface. -/
def Gfx.new (env : GpuEnv) (window : Window) : Outcome Gfx :=
  let size := window.innerSize
  match env.createSurface window with
  | .error e => .error e
  | .ok surface =>
    match env.requestAdapter (requestOptions surface) with
    | none => .error "no adapter found!"
    | some adapter =>
      match env.requestDevice adapter deviceDescriptor with
      | .error e => .error e
      | .ok (device, queue) =>
        let shader : ShaderModule := { source := shaderWgsl }
        let layout : PipelineLayout := { bindGroupLayouts := 0, pushConstantRanges := 0 }
        let caps := env.getCapabilities surface adapter
        match caps.formats with
        | [] => .panic "index out of bounds: the len is 0 but the index is 0"
        | fmt :: _ =>
          let pipeline : RenderPipeline :=
            { layout := some layout
              vertexModule := shader
              vertexEntry := some "vs_main"
              vertexBuffers := 0
              fragmentModule := shader
              fragmentEntry := some "fs_main"
              fragmentTargets := [some fmt]
              depthStencil := none
              sampleCount := 1 }
          match env.getDefaultConfig surface adapter size.1 size.2 with
          | none => .error "failed to create config!"
          | some _config =>
            .ok { surface := surface, device := device, queue := queue, pipeline := pipeline }

/-- The error message `recv()?` propagates when the channel is empty and
the sender has disconnected. -/
def recvErrorMsg : String := "receiving on an empty channel"

/-- One iteration of the redraw arm of `State::run`'s loop: acquire the
next texture (propagating failure), then record the render pass with its
single green-clearing color attachment, the bound pipeline, and the one
`draw(0..3, 0..1)` call, followed by submit and present. -/
def renderFrame (env : GpuEnv) (gfx : Gfx) (n : Nat) : Except String FrameRender :=
  match env.getCurrentTexture n with
  | .error e => .error e
  | .ok _frame =>
    .ok { colorAttachments :=
            [some { resolveTarget := none
                    load := LoadOp.clear Color.GREEN
                    store := StoreOp.store }]
          depthStencilAttachment := none
          pipelineSet := [gfx.pipeline]
          draws := [(0, 3, 0, 1)]
          vertexBuffersSet := 0
          indexBufferSet := false
          submitted := true
          presented := true }

/-- Result of the event loop inside `State::run`: the frames rendered,
the number of `recv` calls made, and how the loop ended. -/
structure LoopResult where
  frames : List FrameRender
  recvs : Nat
  outcome : Outcome Unit
deriving DecidableEq

/-- The `loop` of `State::run`, entered after `Gfx` construction: each
`recv` yields the next event; `RedrawRequested` renders one frame
(propagating acquisition failure), `WindowClose` breaks with `Ok(())`,
and any other event (a late `WindowCreated`) falls to the default arm and
is ignored.  An exhausted list is a disconnected channel: `recv()?`
propagates an error. -/
def runLoop (env : GpuEnv) (gfx : Gfx) : Nat → List Event → LoopResult
  | _, [] => { frames := [], recvs := 1, outcome := .error recvErrorMsg }
  | n, Event.redrawRequested :: rest =>
    match renderFrame env gfx n with
    | .ok fr =>
      let r := runLoop env gfx (n + 1) rest
      { frames := fr :: r.frames, recvs := r.recvs + 1, outcome := r.outcome }
    | .error e => { frames := [], recvs := 1, outcome := .error e }
  | _, Event.windowClose :: _ => { frames := [], recvs := 1, outcome := .ok () }
  | n, Event.windowCreated _ :: rest =>
    let r := runLoop env gfx n rest
    { frames := r.frames, recvs := r.recvs + 1, outcome := r.outcome }

/-- The observable result of `State::run`: the frames rendered, the value
of the `gfx` field observed at each `recv` point (first entry: before the
first event is processed), the number of `Gfx::new` invocations, and the
returned value. -/
structure RunResult where
  frames : List FrameRender
  gfxTrace : List (Option Gfx)
  gfxNewCalls : Nat
  outcome : Outcome Unit

/-- `State::run`: the first received event must be `WindowCreated`
(anything else propagates the error "unexpected event"); then `Gfx::new`
runs once (its failure propagates), and the render loop `runLoop`
processes the remaining events. -/
def State.run (env : GpuEnv) (events : List Event) : RunResult :=
  match events with
  | [] =>
    { frames := [], gfxTrace := [none], gfxNewCalls := 0, outcome := .error recvErrorMsg }
  | Event.windowCreated w :: rest =>
    match Gfx.new env w with
    | .ok g =>
      let r := runLoop env g 0 rest
      { frames := r.frames
        gfxTrace := none :: List.replicate r.recvs (some g)
        gfxNewCalls := 1
        outcome := r.outcome }
    | .error e =>
      { frames := [], gfxTrace := [none], gfxNewCalls := 1, outcome := .error e }
    | .panic m =>
      { frames := [], gfxTrace := [none], gfxNewCalls := 1, outcome := .panic m }
  | _ :: _ =>
    { frames := [], gfxTrace := [none], gfxNewCalls := 0, outcome := .error "unexpected event" }

/-- Window attributes; winit's default is resizable with no requested
inner size. -/
structure WindowAttributes where
  resizable : Bool
  innerSize : Option (Nat × Nat)
deriving DecidableEq

/-- `WindowAttributes::default()`. -/
def WindowAttributes.default : WindowAttributes :=
  { resizable := true, innerSize := none }

/-- `with_resizable`. -/
def WindowAttributes.with_resizable (a : WindowAttributes) (b : Bool) : WindowAttributes :=
  { a with resizable := b }

/-- `with_inner_size`. -/
def WindowAttributes.with_inner_size (a : WindowAttributes) (s : Nat × Nat) : WindowAttributes :=
  { a with innerSize := some s }

/-- The windowing subsystem as an oracle: the result of `create_window`,
and whether the channel `send` fails (receiver disconnected). -/
structure WinitEnv where
  createWindow : WindowAttributes → Except String Window
  sendFails : Bool

/-- The observable result of a `resumed` callback: the attribute sets
passed to `create_window`, the events sent into the channel, and whether
an `unwrap` panicked. -/
structure ResumedResult where
  createdWindows : List WindowAttributes
  sent : List Event
  panicked : Bool
deriving DecidableEq

/-- The attributes `resumed` builds:
`default().with_resizable(false).with_inner_size((1280, 720))`. -/
def fixedWindowAttributes : WindowAttributes :=
  (WindowAttributes.default.with_resizable false).with_inner_size (1280, 720)

/-- `EventHandler::resumed`: create one window with the fixed attributes
(`unwrap` panics on failure), then send `WindowCreated(window)` into the
channel (`unwrap` panics on failure). -/
def EventHandler.resumed (env : WinitEnv) : ResumedResult :=
  match env.createWindow fixedWindowAttributes with
  | .error _ => { createdWindows := [fixedWindowAttributes], sent := [], panicked := true }
  | .ok w =>
    if env.sendFails then
      { createdWindows := [fixedWindowAttributes], sent := [], panicked := true }
    else
      { createdWindows := [fixedWindowAttributes]
        sent := [Event.windowCreated w]
        panicked := false }

/-- The 1280×720 window used as the concrete test window. -/
def w1280 : Window := { innerSize := (1280, 720) }

/-- A GPU oracle on which every call succeeds. -/
def goodGpu : GpuEnv :=
  { createSurface := fun _ => .ok { id := 0 }
    requestAdapter := fun _ => some { id := 0 }
    requestDevice := fun _ _ => .ok ({ id := 0 }, { id := 0 })
    getCapabilities := fun _ _ => { formats := [{ id := 7 }] }
    getDefaultConfig := fun _ _ w h => some { width := w, height := h, format := { id := 7 } }
    getCurrentTexture := fun _ => .ok { id := 0 } }

/-- The pipeline `Gfx.new` builds on `goodGpu`. -/
def goodPipeline : RenderPipeline :=
  { layout := some { bindGroupLayouts := 0, pushConstantRanges := 0 }
    vertexModule := { source := shaderWgsl }
    vertexEntry := some "vs_main"
    vertexBuffers := 0
    fragmentModule := { source := shaderWgsl }
    fragmentEntry := some "fs_main"
    fragmentTargets := [some { id := 7 }]
    depthStencil := none
    sampleCount := 1 }

/-- The context `Gfx.new` builds on `goodGpu`. -/
def goodGfx : Gfx :=
  { surface := { id := 0 }
    device := { id := 0 }
    queue := { id := 0 }
    pipeline := goodPipeline }

/-- A GPU oracle whose adapter negotiation finds no adapter. -/
def noAdapterGpu : GpuEnv :=
  { goodGpu with requestAdapter := fun _ => none }

/-- A GPU oracle whose surface reports no supported formats. -/
def noFormatsGpu : GpuEnv :=
  { goodGpu with getCapabilities := fun _ _ => { formats := [] } }

/-- A GPU oracle with no default surface configuration. -/
def noConfigGpu : GpuEnv :=
  { goodGpu with getDefaultConfig := fun _ _ _ _ => none }

/-- A GPU oracle on which construction succeeds but every texture
acquisition fails with "surface lost". -/
def acqFailGpu : GpuEnv :=
  { goodGpu with getCurrentTexture := fun _ => .error "surface lost" }

/-- A windowing oracle on which window creation and sending succeed. -/
def goodWinit : WinitEnv :=
  { createWindow := fun a => .ok { innerSize := a.innerSize.getD (800, 600) }
    sendFails := false }

/-- A windowing oracle whose window creation fails. -/
def badCreateWinit : WinitEnv :=
  { createWindow := fun _ => .error "os error", sendFails := false }

/-- A windowing oracle whose channel send fails. -/
def badSendWinit : WinitEnv :=
  { createWindow := fun a => .ok { innerSize := a.innerSize.getD (800, 600) }
    sendFails := true }

/-- The frame record produced by every successful redraw on `goodGfx`. -/
def greenFrame : FrameRender :=
  { colorAttachments :=
      [some { resolveTarget := none
              load := LoadOp.clear Color.GREEN
              store := StoreOp.store }]
    depthStencilAttachment := none
    pipelineSet := [goodPipeline]
    draws := [(0, 3, 0, 1)]
    vertexBuffersSet := 0
    indexBufferSet := false
    submitted := true
    presented := true }

/-- C1: if the first event `State::run` receives is `RedrawRequested` or
`WindowClose` rather than `WindowCreated`, the run fails with the error
"unexpected event" and renders no frame. -/
theorem run_unexpected_first_event (env : GpuEnv) (events : List Event) (e : Event)
    (h : events.head? = some e)
    (he : e = Event.redrawRequested ∨ e = Event.windowClose) :
    (State.run env events).outcome = Outcome.error "unexpected event" ∧
    (State.run env events).frames = [] := by
  cases events with
  | nil => simp at h
  | cons e0 rest =>
    simp only [List.head?_cons, Option.some.injEq] at h
    subst h
    rcases he with h1 | h1 <;> subst h1 <;> exact ⟨rfl, rfl⟩

/-- Witness for C1 at the concrete sequence `[RedrawRequested]`. -/
theorem run_unexpected_first_event_witness :
    (State.run goodGpu [Event.redrawRequested]).outcome = Outcome.error "unexpected event" ∧
    (State.run goodGpu [Event.redrawRequested]).frames = [] :=
  run_unexpected_first_event goodGpu [Event.redrawRequested] Event.redrawRequested rfl
    (Or.inl rfl)

/-- C2: in a run whose first event is `WindowCreated` and whose context
construction succeeds, the `gfx` field is `none` at the first receive
point and `some` of the single constructed context at every later one;
`Gfx::new` is invoked exactly once in such a run and never more than once
in any run; and a `WindowCreated` received inside the running loop is
ignored: it changes neither the frames rendered nor the outcome, and
constructs no second context. -/
theorem gfx_none_until_window_created (env : GpuEnv) (w : Window) (rest : List Event)
    (g : Gfx) (hg : Gfx.new env w = Outcome.ok g) :
    (State.run env (Event.windowCreated w :: rest)).gfxTrace.head? = some none ∧
    (∀ o ∈ (State.run env (Event.windowCreated w :: rest)).gfxTrace.tail, o = some g) ∧
    (State.run env (Event.windowCreated w :: rest)).gfxNewCalls = 1 ∧
    (∀ evs, (State.run env evs).gfxNewCalls ≤ 1) ∧
    (∀ g2 n w2 rest2,
      (runLoop env g2 n (Event.windowCreated w2 :: rest2)).frames =
        (runLoop env g2 n rest2).frames ∧
      (runLoop env g2 n (Event.windowCreated w2 :: rest2)).outcome =
        (runLoop env g2 n rest2).outcome) := by
  refine ⟨?_, ?_, ?_, ?_, ?_⟩
  · simp [State.run, hg]
  · intro o ho
    simp only [State.run, hg, List.tail_cons] at ho
    exact List.eq_of_mem_replicate ho
  · simp [State.run, hg]
  · intro evs
    cases evs with
    | nil => simp [State.run]
    | cons e0 r =>
      cases e0 with
      | windowCreated w0 =>
        cases h : Gfx.new env w0 <;> simp [State.run, h]
      | windowClose => simp [State.run]
      | redrawRequested => simp [State.run]
  · intro g2 n w2 rest2
    exact ⟨rfl, rfl⟩

/-- Witness for C2 at `goodGpu` and the sequence `[WindowCreated w1280]`. -/
theorem gfx_none_until_window_created_witness :
    (State.run goodGpu [Event.windowCreated w1280]).gfxTrace.head? = some none ∧
    (State.run goodGpu [Event.windowCreated w1280]).gfxNewCalls = 1 :=
  ⟨(gfx_none_until_window_created goodGpu w1280 [] goodGfx rfl).1,
   (gfx_none_until_window_created goodGpu w1280 [] goodGfx rfl).2.2.1⟩

/-- C3: on `[WindowCreated w, RedrawRequested, RedrawRequested,
WindowClose]`, with construction succeeding and both texture
acquisitions succeeding, `State::run` renders exactly two frames, each
submitted and presented, and returns successfully. -/
theorem two_redraws_two_frames (env : GpuEnv) (w : Window) (g : Gfx) (t0 t1 : Texture)
    (hg : Gfx.new env w = Outcome.ok g)
    (h0 : env.getCurrentTexture 0 = Except.ok t0)
    (h1 : env.getCurrentTexture 1 = Except.ok t1) :
    (State.run env [Event.windowCreated w, Event.redrawRequested, Event.redrawRequested,
      Event.windowClose]).frames.length = 2 ∧
    (∀ fr ∈ (State.run env [Event.windowCreated w, Event.redrawRequested,
      Event.redrawRequested, Event.windowClose]).frames,
      fr.submitted = true ∧ fr.presented = true) ∧
    (State.run env [Event.windowCreated w, Event.redrawRequested, Event.redrawRequested,
      Event.windowClose]).outcome = Outcome.ok () := by
  refine ⟨?_, ?_, ?_⟩ <;> simp [State.run, hg, runLoop, renderFrame, h0, h1]

/-- Witness for C3 at `goodGpu` and the window `w1280`. -/
theorem two_redraws_two_frames_witness :
    (State.run goodGpu [Event.windowCreated w1280, Event.redrawRequested,
      Event.redrawRequested, Event.windowClose]).frames.length = 2 ∧
    (State.run goodGpu [Event.windowCreated w1280, Event.redrawRequested,
      Event.redrawRequested, Event.windowClose]).outcome = Outcome.ok () :=
  ⟨(two_redraws_two_frames goodGpu w1280 goodGfx { id := 0 } { id := 0 } rfl rfl rfl).1,
   (two_redraws_two_frames goodGpu w1280 goodGfx { id := 0 } { id := 0 } rfl rfl rfl).2.2⟩

/-- C4: on `[WindowCreated w, WindowClose]`, with construction
succeeding, `State::run` renders zero frames and returns successfully. -/
theorem close_without_redraw_zero_frames (env : GpuEnv) (w : Window) (g : Gfx)
    (hg : Gfx.new env w = Outcome.ok g) :
    (State.run env [Event.windowCreated w, Event.windowClose]).frames = [] ∧
    (State.run env [Event.windowCreated w, Event.windowClose]).outcome = Outcome.ok () := by
  refine ⟨?_, ?_⟩ <;> simp [State.run, hg, runLoop]

/-- Witness for C4 at `goodGpu` and the window `w1280`. -/
theorem close_without_redraw_zero_frames_witness :
    (State.run goodGpu [Event.windowCreated w1280, Event.windowClose]).frames = [] ∧
    (State.run goodGpu [Event.windowCreated w1280, Event.windowClose]).outcome =
      Outcome.ok () :=
  close_without_redraw_zero_frames goodGpu w1280 goodGfx rfl

/-- C5: every frame rendered by the running loop carries a render pass
with a single color attachment that clears to pure green (0,1,0,1) and
stores, no depth/stencil attachment, the fixed pipeline bound, exactly
one draw of 3 vertices and 1 instance, and no vertex or index buffers
set. -/
theorem render_pass_fixed_green_draw (env : GpuEnv) (gfx : Gfx) :
    ∀ (evs : List Event) (n : Nat) (fr : FrameRender),
      fr ∈ (runLoop env gfx n evs).frames →
      fr.colorAttachments =
        [some { resolveTarget := none
                load := LoadOp.clear Color.GREEN
                store := StoreOp.store }] ∧
      fr.depthStencilAttachment = none ∧
      fr.pipelineSet = [gfx.pipeline] ∧
      fr.draws = [(0, 3, 0, 1)] ∧
      fr.vertexBuffersSet = 0 ∧
      fr.indexBufferSet = false := by
  intro evs
  induction evs with
  | nil =>
    intro n fr h
    simp [runLoop] at h
  | cons e rest ih =>
    intro n fr h
    cases e with
    | windowCreated w =>
      simp only [runLoop] at h
      exact ih n fr h
    | windowClose =>
      simp [runLoop] at h
    | redrawRequested =>
      cases ht : env.getCurrentTexture n with
      | error e2 =>
        simp [runLoop, renderFrame, ht] at h
      | ok t =>
        simp only [runLoop, renderFrame, ht] at h
        rcases List.mem_cons.mp h with h1 | h1
        · subst h1
          exact ⟨rfl, rfl, rfl, rfl, rfl, rfl⟩
        · exact ih (n + 1) fr h1

/-- Witness for C5 at `goodGpu`, `goodGfx` and one redraw. -/
theorem render_pass_fixed_green_draw_witness :
    greenFrame.colorAttachments =
      [some { resolveTarget := none
              load := LoadOp.clear Color.GREEN
              store := StoreOp.store }] ∧
    greenFrame.draws = [(0, 3, 0, 1)] :=
  ⟨(render_pass_fixed_green_draw goodGpu goodGfx [Event.redrawRequested] 0 greenFrame
      (by decide)).1,
   (render_pass_fixed_green_draw goodGpu goodGfx [Event.redrawRequested] 0 greenFrame
      (by decide)).2.2.2.1⟩

/-- C6: when `Gfx::new` succeeds, the color-target format of its render
pipeline is exactly the first element of the format list reported by the
surface capability query. -/
theorem swapchain_format_is_first_capability (env : GpuEnv) (w : Window) (g : Gfx)
    (s : Surface) (a : Adapter)
    (hg : Gfx.new env w = Outcome.ok g)
    (hs : env.createSurface w = Except.ok s)
    (ha : env.requestAdapter (requestOptions s) = some a) :
    ∃ fmt, (env.getCapabilities s a).formats.head? = some fmt ∧
      g.pipeline.fragmentTargets = [some fmt] := by
  simp only [Gfx.new, hs, ha] at hg
  cases hd : env.requestDevice a deviceDescriptor with
  | error e =>
    simp [hd] at hg
  | ok dq =>
    obtain ⟨d, q⟩ := dq
    simp only [hd] at hg
    cases hc : (env.getCapabilities s a).formats with
    | nil =>
      simp [hc] at hg
    | cons fmt rest =>
      simp only [hc] at hg
      cases hcfg : env.getDefaultConfig s a w.innerSize.1 w.innerSize.2 with
      | none =>
        simp [hcfg] at hg
      | some cfg =>
        simp only [hcfg, Outcome.ok.injEq] at hg
        refine ⟨fmt, by simp [hc], ?_⟩
        rw [← hg]

/-- Witness for C6 at `goodGpu`. -/
theorem swapchain_format_is_first_capability_witness :
    ∃ fmt, (goodGpu.getCapabilities { id := 0 } { id := 0 }).formats.head? = some fmt ∧
      goodGfx.pipeline.fragmentTargets = [some fmt] :=
  swapchain_format_is_first_capability goodGpu w1280 goodGfx { id := 0 } { id := 0 }
    rfl rfl rfl

/-- Counterexample for C7: when adapter negotiation yields no adapter,
`Gfx::new` fails with the message "no adapter found!" (with an
exclamation mark), not with the message "no adapter found". -/
theorem adapter_message_counterexample :
    noAdapterGpu.requestAdapter (requestOptions { id := 0 }) = none ∧
    Gfx.new noAdapterGpu w1280 ≠ Outcome.error "no adapter found" ∧
    Gfx.new noAdapterGpu w1280 = Outcome.error "no adapter found!" :=
  ⟨rfl, by decide, rfl⟩

/-- C7 (amended): `Gfx::new` fails with the error "no adapter found!"
when adapter negotiation yields no adapter, fails with the error
"failed to create config!" when the default presentation configuration is
unavailable, propagates every failing construction step's error with no
retry, and on success bundles the created surface, device and queue
(together with the pipeline) in the returned context. -/
theorem gfx_new_error_propagation (env : GpuEnv) (w : Window) :
    (∀ e, env.createSurface w = Except.error e → Gfx.new env w = Outcome.error e) ∧
    (∀ s, env.createSurface w = Except.ok s →
      env.requestAdapter (requestOptions s) = none →
      Gfx.new env w = Outcome.error "no adapter found!") ∧
    (∀ s a e, env.createSurface w = Except.ok s →
      env.requestAdapter (requestOptions s) = some a →
      env.requestDevice a deviceDescriptor = Except.error e →
      Gfx.new env w = Outcome.error e) ∧
    (∀ s a d q fmt fmts, env.createSurface w = Except.ok s →
      env.requestAdapter (requestOptions s) = some a →
      env.requestDevice a deviceDescriptor = Except.ok (d, q) →
      (env.getCapabilities s a).formats = fmt :: fmts →
      env.getDefaultConfig s a w.innerSize.1 w.innerSize.2 = none →
      Gfx.new env w = Outcome.error "failed to create config!") ∧
    (∀ g, Gfx.new env w = Outcome.ok g →
      ∃ s a d q, env.createSurface w = Except.ok s ∧
        env.requestAdapter (requestOptions s) = some a ∧
        env.requestDevice a deviceDescriptor = Except.ok (d, q) ∧
        g.surface = s ∧ g.device = d ∧ g.queue = q) := by
  refine ⟨?_, ?_, ?_, ?_, ?_⟩
  · intro e he
    simp [Gfx.new, he]
  · intro s hs ha
    simp [Gfx.new, hs, ha]
  · intro s a e hs ha hd
    simp [Gfx.new, hs, ha, hd]
  · intro s a d q fmt fmts hs ha hd hc hcfg
    simp [Gfx.new, hs, ha, hd, hc, hcfg]
  · intro g hg
    cases hs : env.createSurface w with
    | error e =>
      simp [Gfx.new, hs] at hg
    | ok s =>
      cases ha : env.requestAdapter (requestOptions s) with
      | none =>
        simp [Gfx.new, hs, ha] at hg
      | some a =>
        cases hd : env.requestDevice a deviceDescriptor with
        | error e =>
          simp [Gfx.new, hs, ha, hd] at hg
        | ok dq =>
          obtain ⟨d, q⟩ := dq
          refine ⟨s, a, d, q, rfl, ha, hd, ?_⟩
          simp only [Gfx.new, hs, ha, hd] at hg
          cases hc : (env.getCapabilities s a).formats with
          | nil =>
            simp [hc] at hg
          | cons fmt rest =>
            simp only [hc] at hg
            cases hcfg : env.getDefaultConfig s a w.innerSize.1 w.innerSize.2 with
            | none =>
              simp [hcfg] at hg
            | some cfg =>
              simp only [hcfg, Outcome.ok.injEq] at hg
              rw [← hg]
              exact ⟨rfl, rfl, rfl⟩

/-- Witness for C7 at the no-adapter and no-config oracles. -/
theorem gfx_new_error_propagation_witness :
    Gfx.new noAdapterGpu w1280 = Outcome.error "no adapter found!" ∧
    Gfx.new noConfigGpu w1280 = Outcome.error "failed to create config!" :=
  ⟨(gfx_new_error_propagation noAdapterGpu w1280).2.1 { id := 0 } rfl rfl,
   (gfx_new_error_propagation noConfigGpu w1280).2.2.2.1 { id := 0 } { id := 0 }
     { id := 0 } { id := 0 } { id := 7 } [] rfl rfl rfl rfl rfl⟩

/-- C8: if acquiring the next surface texture fails, the running loop
terminates at once with that error: no frame is submitted or presented,
no re-acquire is attempted, the remaining events are not consumed, and
the error propagates out of `State::run`. -/
theorem acquire_failure_fatal (env : GpuEnv) (gfx : Gfx) (n : Nat) (rest : List Event)
    (e : String) (h : env.getCurrentTexture n = Except.error e) :
    runLoop env gfx n (Event.redrawRequested :: rest) =
      { frames := [], recvs := 1, outcome := Outcome.error e } ∧
    (∀ w, n = 0 → Gfx.new env w = Outcome.ok gfx →
      (State.run env (Event.windowCreated w :: Event.redrawRequested :: rest)).outcome =
        Outcome.error e ∧
      (State.run env (Event.windowCreated w :: Event.redrawRequested :: rest)).frames =
        []) := by
  constructor
  · simp [runLoop, renderFrame, h]
  · intro w hn hg
    subst hn
    refine ⟨?_, ?_⟩ <;> simp [State.run, hg, runLoop, renderFrame, h]

/-- Witness for C8 at `acqFailGpu`. -/
theorem acquire_failure_fatal_witness :
    (State.run acqFailGpu [Event.windowCreated w1280, Event.redrawRequested]).outcome =
      Outcome.error "surface lost" ∧
    (State.run acqFailGpu [Event.windowCreated w1280, Event.redrawRequested]).frames =
      [] :=
  (acquire_failure_fatal acqFailGpu goodGfx 0 [] "surface lost" rfl).2 w1280 rfl rfl

/-- C9: the `resumed` callback creates exactly one window, with
resizable set to false and inner size 1280×720, and on success sends
exactly `WindowCreated(window)` into the channel; if window creation or
the send fails, it panics instead of retrying, sending nothing. -/
theorem resumed_creates_fixed_window (env : WinitEnv) :
    (EventHandler.resumed env).createdWindows = [fixedWindowAttributes] ∧
    fixedWindowAttributes.resizable = false ∧
    fixedWindowAttributes.innerSize = some (1280, 720) ∧
    (∀ w, env.createWindow fixedWindowAttributes = Except.ok w → env.sendFails = false →
      (EventHandler.resumed env).sent = [Event.windowCreated w] ∧
      (EventHandler.resumed env).panicked = false) ∧
    (∀ e, env.createWindow fixedWindowAttributes = Except.error e →
      (EventHandler.resumed env).panicked = true ∧
      (EventHandler.resumed env).sent = []) ∧
    (∀ w, env.createWindow fixedWindowAttributes = Except.ok w → env.sendFails = true →
      (EventHandler.resumed env).panicked = true ∧
      (EventHandler.resumed env).sent = []) := by
  refine ⟨?_, rfl, rfl, ?_, ?_, ?_⟩
  · cases h : env.createWindow fixedWindowAttributes with
    | error e => simp [EventHandler.resumed, h]
    | ok w => cases hs : env.sendFails <;> simp [EventHandler.resumed, h, hs]
  · intro w hw hs
    refine ⟨?_, ?_⟩ <;> simp [EventHandler.resumed, hw, hs]
  · intro e he
    refine ⟨?_, ?_⟩ <;> simp [EventHandler.resumed, he]
  · intro w hw hs
    refine ⟨?_, ?_⟩ <;> simp [EventHandler.resumed, hw, hs]

/-- Witness for C9 at `goodWinit`. -/
theorem resumed_creates_fixed_window_witness :
    (EventHandler.resumed goodWinit).createdWindows = [fixedWindowAttributes] ∧
    (EventHandler.resumed goodWinit).sent =
      [Event.windowCreated { innerSize := (1280, 720) }] ∧
    (EventHandler.resumed goodWinit).panicked = false :=
  ⟨(resumed_creates_fixed_window goodWinit).1,
   ((resumed_creates_fixed_window goodWinit).2.2.2.1 { innerSize := (1280, 720) }
     rfl rfl).1,
   ((resumed_creates_fixed_window goodWinit).2.2.2.1 { innerSize := (1280, 720) }
     rfl rfl).2⟩

/-- C10: with surface, adapter and device negotiation succeeding, an
empty supported-format list makes `Gfx::new` panic with the
out-of-bounds indexing message rather than return a typed error; and a
panic of `Gfx::new` can only arise from an empty format list, so the
format-selection step is safe exactly under the precondition that the
reported list is non-empty. -/
theorem empty_formats_panics (env : GpuEnv) (w : Window) (s : Surface) (a : Adapter)
    (d : Device) (q : Queue)
    (hs : env.createSurface w = Except.ok s)
    (ha : env.requestAdapter (requestOptions s) = some a)
    (hd : env.requestDevice a deviceDescriptor = Except.ok (d, q)) :
    ((env.getCapabilities s a).formats = [] →
      Gfx.new env w =
        Outcome.panic "index out of bounds: the len is 0 but the index is 0") ∧
    (∀ m, Gfx.new env w = Outcome.panic m → (env.getCapabilities s a).formats = []) := by
  constructor
  · intro hc
    simp [Gfx.new, hs, ha, hd, hc]
  · intro m hm
    cases hc : (env.getCapabilities s a).formats with
    | nil => rfl
    | cons fmt rest =>
      cases hcfg : env.getDefaultConfig s a w.innerSize.1 w.innerSize.2 with
      | none => simp [Gfx.new, hs, ha, hd, hc, hcfg] at hm
      | some cfg => simp [Gfx.new, hs, ha, hd, hc, hcfg] at hm

/-- Witness for C10 at `noFormatsGpu`. -/
theorem empty_formats_panics_witness :
    Gfx.new noFormatsGpu w1280 =
      Outcome.panic "index out of bounds: the len is 0 but the index is 0" :=
  (empty_formats_panics noFormatsGpu w1280 { id := 0 } { id := 0 } { id := 0 } { id := 0 }
    rfl rfl rfl).1 rfl

end HelloTriangle
